import Mathlib

/-!
# Motofinai financing core: a shallow embedding

This file embeds the loan / payment / risk / repossession / stock core of the
motofinai financing management system (Django models in
`motofinai/apps/{loans,payments,risk,repossession,inventory}/models.py`) and
proves properties of the embedded operations.

Encoding conventions, fixed once here:

* Every `Decimal(max_digits=…, decimal_places=2)` money value is represented by
  an integer number of **hundredths** (cents): the Python value `4133.33` is the
  integer `413333`.  Python `Decimal` arithmetic on such values is exact
  rational arithmetic, and `x.quantize(Decimal("0.01"), ROUND_HALF_UP)` applied
  to a value that is already an exact multiple of `0.01` is the identity, so
  those quantize calls disappear in the integer encoding.  Quantize calls whose
  argument is a genuine fraction (a quotient) become `divRoundHalfUp`.
* Interest rates (2-dp percentages) are integers in hundredths of a percent:
  `12.00%` is `1200`.
* Dates and timestamps are abstract integers ordered like time; only their
  ordering is ever used by the embedded logic (`due_date < reference`).
* Raising `ValidationError` / `ValueError` is `Except.error`; the embedded
  state-changing operations are functions `State → Except String State`, so an
  error leaves the caller's state unchanged by construction, mirroring the
  Python methods, which all raise before mutating.
-/

/-- Python `Decimal` rounding `ROUND_HALF_UP` (round to nearest, ties away from
zero) of the quotient `a / b`, for a positive divisor `b`.  For `0 ≤ a` this is
`⌊a/b + 1/2⌋ = ⌊(2a+b)/(2b)⌋`; for `a < 0` it is the mirror image. -/
def divRoundHalfUp (a b : ℤ) : ℤ :=
  if 0 ≤ a then (2 * a + b).fdiv (2 * b) else -((2 * (-a) + b).fdiv (2 * b))

/-! ## Loans: `motofinai/apps/loans/models.py` -/

/-- One row of `PaymentSchedule` as produced by
`LoanApplication.generate_payment_schedule` (the fields the schedule-generation
claims are about; `due_date` and `status` are exercised separately by the
runtime `ScheduleRow` below).  Amounts are cents. -/
structure Installment where
  sequence : ℕ
  principal_amount : ℤ
  interest_amount : ℤ
  total_amount : ℤ
deriving DecidableEq

/-- The quantized simple interest
`(principal * annual_rate * term_years).quantize(Decimal("0.01"), ROUND_HALF_UP)`
with `annual_rate = interest_rate / 100`.  In cents:
`principal/100 * (rate/10000) * years * 100 = principal*rate*years / 10000`. -/
def total_interest_of (principal interest_rate : ℤ) (term_years : ℕ) : ℤ :=
  divRoundHalfUp (principal * interest_rate * (term_years : ℤ)) 10000

/-- `LoanApplication.calculate_monthly_payment`: zero for a non-positive
principal, otherwise the simple-interest total divided by the number of months,
rounded half-up to 2dp. -/
def calculate_monthly_payment (principal interest_rate : ℤ) (term_years : ℕ) : ℤ :=
  if principal ≤ 0 then 0
  else
    let total_months : ℕ := term_years * 12
    let total_interest := total_interest_of principal interest_rate term_years
    divRoundHalfUp (principal + total_interest) (total_months : ℤ)

/-- The `principal_amount` computed by the non-final branch of the loop in
`generate_payment_schedule`: the rounded principal share
`(principal_total / periods).quantize(0.01, HALF_UP)`, capped at the monthly
payment; if the implied interest would be negative it is reset to the full
monthly payment.  (With the cap in place the implied interest is never
negative, but the source clamp is translated as written.) -/
def flat_principal (principal monthly_payment : ℤ) (periods : ℕ) : ℤ :=
  let pa0 := divRoundHalfUp principal (periods : ℤ)
  let pa1 := if monthly_payment < pa0 then monthly_payment else pa0
  if monthly_payment - pa1 < 0 then monthly_payment else pa1

/-- The `interest_amount` computed by the non-final branch of the loop in
`generate_payment_schedule`: `monthly_payment - principal_amount`, clamped at
zero. -/
def flat_interest (principal monthly_payment : ℤ) (periods : ℕ) : ℤ :=
  let pa0 := divRoundHalfUp principal (periods : ℤ)
  let pa1 := if monthly_payment < pa0 then monthly_payment else pa0
  let ia0 := monthly_payment - pa1
  if ia0 < 0 then 0 else ia0

/-- The `for index in range(periods)` loop of `generate_payment_schedule`,
as a recursion on the number of remaining installments
(`remaining = periods - index`; `remaining = 1` is the final installment,
`index == periods - 1`).  The final installment takes the outstanding principal
and interest remainders, clamped at zero; every other installment is the flat
pair above, and the running totals `principal_paid` / `interest_paid`
accumulate. -/
def scheduleRows (principal total_interest monthly_payment : ℤ) (periods : ℕ) :
    ℕ → ℕ → ℤ → ℤ → List Installment
  | 0, _, _, _ => []
  | 1, index, principal_paid, interest_paid =>
      let principal_amount := max (principal - principal_paid) 0
      let interest_amount := max (total_interest - interest_paid) 0
      let payment_total := principal_amount + interest_amount
      [⟨index + 1, principal_amount, interest_amount, payment_total⟩]
  | remaining + 2, index, principal_paid, interest_paid =>
      let principal_amount := flat_principal principal monthly_payment periods
      let interest_amount := flat_interest principal monthly_payment periods
      ⟨index + 1, principal_amount, interest_amount, monthly_payment⟩ ::
        scheduleRows principal total_interest monthly_payment periods
          (remaining + 1) (index + 1) (principal_paid + principal_amount)
          (interest_paid + interest_amount)

/-- `LoanApplication.generate_payment_schedule`: empty for a non-positive
principal; otherwise `periods = term_years * 12` rows produced by the loop,
using the stored monthly payment when it is positive and recomputing it
otherwise. -/
def generate_payment_schedule (principal interest_rate : ℤ) (term_years : ℕ)
    (stored_monthly_payment : ℤ) : List Installment :=
  if principal ≤ 0 then []
  else
    let periods := term_years * 12
    let total_interest := total_interest_of principal interest_rate term_years
    let monthly_payment :=
      if stored_monthly_payment ≤ 0 then
        calculate_monthly_payment principal interest_rate term_years
      else stored_monthly_payment
    scheduleRows principal total_interest monthly_payment periods periods 0 0 0

/-- The monthly-payment formula exactly as the specification words it:
`round_half_up((principal + round_half_up(principal * rate/100 * termYears, 2))
/ (termYears*12), 2)` for a positive principal and `0.00` otherwise. -/
def monthlyPaymentSpec (principal annual_rate_percent : ℤ) (term_years : ℕ) : ℤ :=
  if 0 < principal then
    divRoundHalfUp
      (principal + divRoundHalfUp (principal * annual_rate_percent * (term_years : ℤ)) 10000)
      ((term_years * 12 : ℕ) : ℤ)
  else 0

/-! ### Schedule arithmetic lemmas -/

theorem scheduleRows_length (P TI M : ℤ) (periods : ℕ) :
    ∀ (n index : ℕ) (pp ip : ℤ),
      (scheduleRows P TI M periods n index pp ip).length = n := by
  intro n
  induction n using Nat.strong_induction_on with
  | _ n ih =>
    match n with
    | 0 => intro index pp ip; rfl
    | 1 => intro index pp ip; rfl
    | n + 2 =>
      intro index pp ip
      simp only [scheduleRows, List.length_cons]
      rw [ih (n + 1) (by omega)]

theorem scheduleRows_sum_principal (P TI M : ℤ) (periods : ℕ) :
    ∀ (n index : ℕ) (pp ip : ℤ),
      ((scheduleRows P TI M periods (n + 1) index pp ip).map
          Installment.principal_amount).sum
        = n * flat_principal P M periods
            + max (P - (pp + n * flat_principal P M periods)) 0 := by
  intro n
  induction n with
  | zero =>
    intro index pp ip
    simp [scheduleRows]
  | succ n ih =>
    intro index pp ip
    have step :
        scheduleRows P TI M periods (n + 1 + 1) index pp ip
          = ⟨index + 1, flat_principal P M periods, flat_interest P M periods, M⟩ ::
              scheduleRows P TI M periods (n + 1) (index + 1)
                (pp + flat_principal P M periods) (ip + flat_interest P M periods) := rfl
    rw [step]
    simp only [List.map_cons, List.sum_cons]
    rw [ih]
    have harg : pp + flat_principal P M periods + n * flat_principal P M periods
        = pp + (n + 1 : ℕ) * flat_principal P M periods := by push_cast; ring
    rw [harg]
    push_cast
    ring

theorem scheduleRows_sum_interest (P TI M : ℤ) (periods : ℕ) :
    ∀ (n index : ℕ) (pp ip : ℤ),
      ((scheduleRows P TI M periods (n + 1) index pp ip).map
          Installment.interest_amount).sum
        = n * flat_interest P M periods
            + max (TI - (ip + n * flat_interest P M periods)) 0 := by
  intro n
  induction n with
  | zero =>
    intro index pp ip
    simp [scheduleRows]
  | succ n ih =>
    intro index pp ip
    have step :
        scheduleRows P TI M periods (n + 1 + 1) index pp ip
          = ⟨index + 1, flat_principal P M periods, flat_interest P M periods, M⟩ ::
              scheduleRows P TI M periods (n + 1) (index + 1)
                (pp + flat_principal P M periods) (ip + flat_interest P M periods) := rfl
    rw [step]
    simp only [List.map_cons, List.sum_cons]
    rw [ih]
    have harg : ip + flat_interest P M periods + n * flat_interest P M periods
        = ip + (n + 1 : ℕ) * flat_interest P M periods := by push_cast; ring
    rw [harg]
    push_cast
    ring

theorem scheduleRows_sum_total (P TI M : ℤ) (periods : ℕ) :
    ∀ (n index : ℕ) (pp ip : ℤ),
      ((scheduleRows P TI M periods (n + 1) index pp ip).map
          Installment.total_amount).sum
        = n * M
            + (max (P - (pp + n * flat_principal P M periods)) 0
                + max (TI - (ip + n * flat_interest P M periods)) 0) := by
  intro n
  induction n with
  | zero =>
    intro index pp ip
    simp [scheduleRows]
  | succ n ih =>
    intro index pp ip
    have step :
        scheduleRows P TI M periods (n + 1 + 1) index pp ip
          = ⟨index + 1, flat_principal P M periods, flat_interest P M periods, M⟩ ::
              scheduleRows P TI M periods (n + 1) (index + 1)
                (pp + flat_principal P M periods) (ip + flat_interest P M periods) := rfl
    rw [step]
    simp only [List.map_cons, List.sum_cons]
    rw [ih]
    have hargp : pp + flat_principal P M periods + n * flat_principal P M periods
        = pp + (n + 1 : ℕ) * flat_principal P M periods := by push_cast; ring
    have hargi : ip + flat_interest P M periods + n * flat_interest P M periods
        = ip + (n + 1 : ℕ) * flat_interest P M periods := by push_cast; ring
    rw [hargp, hargi]
    push_cast
    ring

/-- Each non-final installment splits the monthly payment exactly between its
principal and interest parts. -/
theorem flat_principal_add_flat_interest (P M : ℤ) (periods : ℕ) :
    flat_principal P M periods + flat_interest P M periods = M := by
  unfold flat_principal flat_interest
  dsimp only
  split <;> split <;> omega

/-- Core sum computation: a schedule of `k+1` rows generated with monthly
payment `M` and quantized total interest `TI` sums exactly to `P`, `TI` and
`P + TI` provided the `k` flat installments do not overshoot either total. -/
theorem schedule_sums_core (P TI M : ℤ) (k : ℕ)
    (hflatP : (k : ℤ) * flat_principal P M (k + 1) ≤ P)
    (hflatI : (k : ℤ) * flat_interest P M (k + 1) ≤ TI) :
    ((scheduleRows P TI M (k + 1) (k + 1) 0 0 0).map Installment.principal_amount).sum = P
    ∧ ((scheduleRows P TI M (k + 1) (k + 1) 0 0 0).map Installment.interest_amount).sum = TI
    ∧ ((scheduleRows P TI M (k + 1) (k + 1) 0 0 0).map Installment.total_amount).sum
        = ((scheduleRows P TI M (k + 1) (k + 1) 0 0 0).map Installment.principal_amount).sum
          + ((scheduleRows P TI M (k + 1) (k + 1) 0 0 0).map Installment.interest_amount).sum := by
  have hM := flat_principal_add_flat_interest P M (k + 1)
  have hsplit : (k : ℤ) * M = (k : ℤ) * flat_principal P M (k + 1)
      + (k : ℤ) * flat_interest P M (k + 1) := by linear_combination (k : ℤ) * hM.symm
  refine ⟨?_, ?_, ?_⟩
  · rw [scheduleRows_sum_principal, max_eq_left (by linarith)]
    ring
  · rw [scheduleRows_sum_interest, max_eq_left (by linarith)]
    ring
  · rw [scheduleRows_sum_total, scheduleRows_sum_principal, scheduleRows_sum_interest,
      max_eq_left (by linarith), max_eq_left (by linarith)]
    linarith

/-- Rewriting `generate_payment_schedule` at a loan whose stored monthly payment
is the freshly computed one (as `approve` arranges via
`update_monthly_payment`). -/
theorem generate_eq_scheduleRows (P R : ℤ) (T : ℕ) (hP : ¬ P ≤ 0) :
    generate_payment_schedule P R T (calculate_monthly_payment P R T)
      = scheduleRows P (total_interest_of P R T) (calculate_monthly_payment P R T)
          (T * 12) (T * 12) 0 0 0 := by
  unfold generate_payment_schedule
  rw [if_neg hP]
  simp only [ite_self]

/-- C1, amended.  For a generated payment schedule (`principal > 0`,
`rate ≥ 0`, `termYears ∈ 1..10`), the installment sums match the loan
principal, the quantized simple interest, and their sum exactly — provided the
flat installments do not overshoot: `(periods-1) * flatPrincipal ≤ principal`
and `(periods-1) * flatInterest ≤ totalInterest`.  (Without the overshoot
hypotheses the first two equalities can fail; see the counterexample.) -/
theorem schedule_sums_exact (P R : ℤ) (T : ℕ)
    (hP : 0 < P) (hT1 : 1 ≤ T) (hT10 : T ≤ 10) (hR : 0 ≤ R)
    (hflatP : ((T * 12 - 1 : ℕ) : ℤ)
        * flat_principal P (calculate_monthly_payment P R T) (T * 12) ≤ P)
    (hflatI : ((T * 12 - 1 : ℕ) : ℤ)
        * flat_interest P (calculate_monthly_payment P R T) (T * 12)
        ≤ total_interest_of P R T) :
    ((generate_payment_schedule P R T (calculate_monthly_payment P R T)).map
        Installment.principal_amount).sum = P
    ∧ ((generate_payment_schedule P R T (calculate_monthly_payment P R T)).map
        Installment.interest_amount).sum = total_interest_of P R T
    ∧ ((generate_payment_schedule P R T (calculate_monthly_payment P R T)).map
        Installment.total_amount).sum
        = ((generate_payment_schedule P R T (calculate_monthly_payment P R T)).map
            Installment.principal_amount).sum
          + ((generate_payment_schedule P R T (calculate_monthly_payment P R T)).map
            Installment.interest_amount).sum := by
  obtain ⟨k, hk⟩ : ∃ k, T * 12 = k + 1 := ⟨T * 12 - 1, by omega⟩
  rw [generate_eq_scheduleRows P R T (by omega), hk]
  rw [hk] at hflatP hflatI
  simp only [Nat.add_sub_cancel] at hflatP hflatI
  exact schedule_sums_core P (total_interest_of P R T) (calculate_monthly_payment P R T)
    k hflatP hflatI

/-- Witness for `schedule_sums_exact`: the 80000.00 / 12.00% / 2-year loan of
the source tests; each sum is computed by `decide` over the 24 generated
rows. -/
theorem schedule_sums_exact_witness :
    ((generate_payment_schedule 8000000 1200 2
        (calculate_monthly_payment 8000000 1200 2)).map
        Installment.principal_amount).sum = 8000000
    ∧ ((generate_payment_schedule 8000000 1200 2
        (calculate_monthly_payment 8000000 1200 2)).map
        Installment.interest_amount).sum = total_interest_of 8000000 1200 2
    ∧ ((generate_payment_schedule 8000000 1200 2
        (calculate_monthly_payment 8000000 1200 2)).map
        Installment.total_amount).sum
        = ((generate_payment_schedule 8000000 1200 2
            (calculate_monthly_payment 8000000 1200 2)).map
            Installment.principal_amount).sum
          + ((generate_payment_schedule 8000000 1200 2
            (calculate_monthly_payment 8000000 1200 2)).map
            Installment.interest_amount).sum :=
  schedule_sums_exact 8000000 1200 2 (by decide) (by decide) (by decide) (by decide)
    (by decide) (by decide)

/-- C1 fails as stated: for the valid triple `principal = 0.12`,
`rate = 0.00%`, `termYears = 2` the 23 non-final installments each carry the
half-up-rounded share `0.01`, so the principal column sums to `0.23`, not to
the loan principal `0.12`. -/
theorem schedule_principal_sum_counterexample :
    ((generate_payment_schedule 12 0 2 (calculate_monthly_payment 12 0 2)).map
        Installment.principal_amount).sum ≠ 12 := by
  decide

/-- C2.  The computed monthly payment agrees with the specified closed formula
everywhere (with the `principal ≤ 0 → 0.00` guard), and on the scenario loan
`principal = 80000.00`, `rate = 12.00%`, `termYears = 2` it yields total
interest `19200.00` and monthly payment `4133.33`. -/
theorem monthly_payment_formula :
    (∀ (P R : ℤ) (T : ℕ), calculate_monthly_payment P R T = monthlyPaymentSpec P R T)
    ∧ total_interest_of 8000000 1200 2 = 1920000
    ∧ calculate_monthly_payment 8000000 1200 2 = 413333 := by
  refine ⟨?_, by decide, by decide⟩
  intro P R T
  unfold calculate_monthly_payment monthlyPaymentSpec total_interest_of
  by_cases h : P ≤ 0
  · rw [if_pos h, if_neg (by omega)]
  · rw [if_neg h, if_pos (by omega)]

/-- Every row except the last of a `scheduleRows` run carries the monthly
payment as its total. -/
theorem scheduleRows_dropLast_total (P TI M : ℤ) (periods : ℕ) :
    ∀ (n index : ℕ) (pp ip : ℤ) (row : Installment),
      row ∈ (scheduleRows P TI M periods n index pp ip).dropLast →
      row.total_amount = M := by
  intro n
  induction n using Nat.strong_induction_on with
  | _ n ih =>
    match n with
    | 0 => intro index pp ip row hrow; simp [scheduleRows] at hrow
    | 1 => intro index pp ip row hrow; simp [scheduleRows] at hrow
    | n + 2 =>
      intro index pp ip row hrow
      rw [show scheduleRows P TI M periods (n + 2) index pp ip
          = ⟨index + 1, flat_principal P M periods, flat_interest P M periods, M⟩ ::
              scheduleRows P TI M periods (n + 1) (index + 1)
                (pp + flat_principal P M periods) (ip + flat_interest P M periods)
          from rfl] at hrow
      cases htail : scheduleRows P TI M periods (n + 1) (index + 1)
          (pp + flat_principal P M periods) (ip + flat_interest P M periods) with
      | nil =>
        have := scheduleRows_length P TI M periods (n + 1) (index + 1)
          (pp + flat_principal P M periods) (ip + flat_interest P M periods)
        rw [htail] at this
        simp at this
      | cons b l =>
        rw [htail, List.dropLast_cons₂] at hrow
        rcases List.mem_cons.mp hrow with hhead | htailmem
        · rw [hhead]
        · exact ih (n + 1) (by omega) (index + 1)
            (pp + flat_principal P M periods) (ip + flat_interest P M periods) row
            (by rw [htail]; exact htailmem)

/-- C3.  In every generated schedule each installment except the last has
`total_amount` equal to the loan's computed monthly payment exactly. -/
theorem flat_installment_totals (P R : ℤ) (T : ℕ) (row : Installment)
    (hrow : row ∈ (generate_payment_schedule P R T
        (calculate_monthly_payment P R T)).dropLast) :
    row.total_amount = calculate_monthly_payment P R T := by
  by_cases h : P ≤ 0
  · unfold generate_payment_schedule at hrow
    rw [if_pos h] at hrow
    simp at hrow
  · rw [generate_eq_scheduleRows P R T h] at hrow
    exact scheduleRows_dropLast_total P (total_interest_of P R T)
      (calculate_monthly_payment P R T) (T * 12) (T * 12) 0 0 0 row hrow

/-- Witness for `flat_installment_totals`: the first installment of the
80000.00 / 12.00% / 2-year schedule totals the monthly payment 4133.33. -/
theorem flat_installment_totals_witness :
    (⟨1, 333333, 80000, 413333⟩ : Installment).total_amount
      = calculate_monthly_payment 8000000 1200 2 :=
  flat_installment_totals 8000000 1200 2 ⟨1, 333333, 80000, 413333⟩ (by decide)

/-! ## Stock counters: `motofinai/apps/inventory/models.py`

The four `PositiveIntegerField` bucket counters of `Stock` are embedded as
integers (so that non-negativity is a provable invariant rather than a typing
artifact); a requested transfer amount is a count of units (`ℕ`).  The Python
error strings interpolate the offending numbers; the embedding keeps the fixed
prefix of each message. -/

structure Stock where
  quantity_available : ℤ
  quantity_reserved : ℤ
  quantity_sold : ℤ
  quantity_repossessed : ℤ
deriving DecidableEq

/-- `Stock.total_quantity`: total across all four statuses. -/
def Stock.total_quantity (s : Stock) : ℤ :=
  s.quantity_available + s.quantity_reserved + s.quantity_sold + s.quantity_repossessed

/-- All four counters are non-negative (the `PositiveIntegerField` invariant). -/
def Stock.nonneg (s : Stock) : Prop :=
  0 ≤ s.quantity_available ∧ 0 ≤ s.quantity_reserved
    ∧ 0 ≤ s.quantity_sold ∧ 0 ≤ s.quantity_repossessed

instance (s : Stock) : Decidable s.nonneg := by
  unfold Stock.nonneg
  infer_instance

/-- `Stock.mark_as_reserved`: available → reserved. -/
def Stock.mark_as_reserved (s : Stock) (amount : ℕ) : Except String Stock :=
  if s.quantity_available < (amount : ℤ) then
    Except.error "Insufficient available stock."
  else
    Except.ok { s with quantity_available := s.quantity_available - amount,
                       quantity_reserved := s.quantity_reserved + amount }

/-- `Stock.mark_as_sold`: available → sold, falling back to reserved → sold
when available is insufficient. -/
def Stock.mark_as_sold (s : Stock) (amount : ℕ) : Except String Stock :=
  if (amount : ℤ) ≤ s.quantity_available then
    Except.ok { s with quantity_available := s.quantity_available - amount,
                       quantity_sold := s.quantity_sold + amount }
  else if (amount : ℤ) ≤ s.quantity_reserved then
    Except.ok { s with quantity_reserved := s.quantity_reserved - amount,
                       quantity_sold := s.quantity_sold + amount }
  else
    Except.error "Insufficient stock for sale."

/-- `Stock.mark_as_repossessed`: sold → repossessed. -/
def Stock.mark_as_repossessed (s : Stock) (amount : ℕ) : Except String Stock :=
  if s.quantity_sold < (amount : ℤ) then
    Except.error "Cannot repossess more than sold."
  else
    Except.ok { s with quantity_sold := s.quantity_sold - amount,
                       quantity_repossessed := s.quantity_repossessed + amount }

/-- `Stock.return_to_available`: repossessed → available. -/
def Stock.return_to_available (s : Stock) (amount : ℕ) : Except String Stock :=
  if s.quantity_repossessed < (amount : ℤ) then
    Except.error "Cannot return more than repossessed."
  else
    Except.ok { s with quantity_repossessed := s.quantity_repossessed - amount,
                       quantity_available := s.quantity_available + amount }

/-- `Stock.cancel_reservation`: reserved → available. -/
def Stock.cancel_reservation (s : Stock) (amount : ℕ) : Except String Stock :=
  if s.quantity_reserved < (amount : ℤ) then
    Except.error "Cannot cancel more than reserved."
  else
    Except.ok { s with quantity_reserved := s.quantity_reserved - amount,
                       quantity_available := s.quantity_available + amount }

/-- `Stock.decrease_available`: available → sold (loan activation). -/
def Stock.decrease_available (s : Stock) (amount : ℕ) : Except String Stock :=
  if s.quantity_available < (amount : ℤ) then
    Except.error "Insufficient available stock."
  else
    Except.ok { s with quantity_available := s.quantity_available - amount,
                       quantity_sold := s.quantity_sold + amount }

/-- `Stock.increase_available`: sold → available (recovery). -/
def Stock.increase_available (s : Stock) (amount : ℕ) : Except String Stock :=
  if s.quantity_sold < (amount : ℤ) then
    Except.error "Cannot return more than sold."
  else
    Except.ok { s with quantity_sold := s.quantity_sold - amount,
                       quantity_available := s.quantity_available + amount }

/-- The seven transfer operations of `Stock`, as one operation type. -/
inductive StockOp
  | mark_as_reserved
  | mark_as_sold
  | mark_as_repossessed
  | return_to_available
  | cancel_reservation
  | decrease_available
  | increase_available
deriving DecidableEq

def StockOp.apply : StockOp → Stock → ℕ → Except String Stock
  | .mark_as_reserved, s, a => s.mark_as_reserved a
  | .mark_as_sold, s, a => s.mark_as_sold a
  | .mark_as_repossessed, s, a => s.mark_as_repossessed a
  | .return_to_available, s, a => s.return_to_available a
  | .cancel_reservation, s, a => s.cancel_reservation a
  | .decrease_available, s, a => s.decrease_available a
  | .increase_available, s, a => s.increase_available a

/-- View of the four counters as indexed buckets, for stating the transfer
shape. -/
def Stock.bucket (s : Stock) : Fin 4 → ℤ :=
  ![s.quantity_available, s.quantity_reserved, s.quantity_sold, s.quantity_repossessed]

/-- The state change from `s` to `t` moves exactly `a` units from one bucket to
another and leaves the other two buckets untouched. -/
def movesExactly (s t : Stock) (a : ℤ) : Prop :=
  ∃ i j : Fin 4, i ≠ j
    ∧ t.bucket i = s.bucket i - a
    ∧ t.bucket j = s.bucket j + a
    ∧ ∀ k : Fin 4, k ≠ i → k ≠ j → t.bucket k = s.bucket k

/-- C9.  Every stock transfer either fails (returning no new state, so the
counters are untouched) or moves exactly the requested amount between two
buckets, keeps every bucket non-negative, and conserves the four-bucket
total. -/
theorem stock_transfer_invariants (op : StockOp) (s : Stock) (amount : ℕ)
    (hs : s.nonneg) :
    (∃ e, op.apply s amount = Except.error e)
    ∨ ∃ t, op.apply s amount = Except.ok t ∧ t.nonneg
        ∧ t.total_quantity = s.total_quantity ∧ movesExactly s t (amount : ℤ) := by
  obtain ⟨h1, h2, h3, h4⟩ := hs
  cases op
  case mark_as_reserved =>
    simp only [StockOp.apply]
    unfold Stock.mark_as_reserved
    by_cases h : s.quantity_available < (amount : ℤ)
    · rw [if_pos h]; exact Or.inl ⟨_, rfl⟩
    · rw [if_neg h]
      refine Or.inr ⟨_, rfl, ⟨by dsimp; omega, by dsimp; omega, by dsimp; omega,
        by dsimp; omega⟩, by unfold Stock.total_quantity; dsimp; ring,
        0, 1, by decide, by simp [Stock.bucket], by simp [Stock.bucket],
        fun k hk0 hk1 => by fin_cases k <;> simp_all [Stock.bucket]⟩
  case mark_as_sold =>
    simp only [StockOp.apply]
    unfold Stock.mark_as_sold
    by_cases ha : (amount : ℤ) ≤ s.quantity_available
    · rw [if_pos ha]
      refine Or.inr ⟨_, rfl, ⟨by dsimp; omega, by dsimp; omega, by dsimp; omega,
        by dsimp; omega⟩, by unfold Stock.total_quantity; dsimp; ring,
        0, 2, by decide, by simp [Stock.bucket], by simp [Stock.bucket],
        fun k hk0 hk1 => by fin_cases k <;> simp_all [Stock.bucket]⟩
    · rw [if_neg ha]
      by_cases hr : (amount : ℤ) ≤ s.quantity_reserved
      · rw [if_pos hr]
        refine Or.inr ⟨_, rfl, ⟨by dsimp; omega, by dsimp; omega, by dsimp; omega,
          by dsimp; omega⟩, by unfold Stock.total_quantity; dsimp; ring,
          1, 2, by decide, by simp [Stock.bucket], by simp [Stock.bucket],
          fun k hk0 hk1 => by fin_cases k <;> simp_all [Stock.bucket]⟩
      · rw [if_neg hr]; exact Or.inl ⟨_, rfl⟩
  case mark_as_repossessed =>
    simp only [StockOp.apply]
    unfold Stock.mark_as_repossessed
    by_cases h : s.quantity_sold < (amount : ℤ)
    · rw [if_pos h]; exact Or.inl ⟨_, rfl⟩
    · rw [if_neg h]
      refine Or.inr ⟨_, rfl, ⟨by dsimp; omega, by dsimp; omega, by dsimp; omega,
        by dsimp; omega⟩, by unfold Stock.total_quantity; dsimp; ring,
        2, 3, by decide, by simp [Stock.bucket], by simp [Stock.bucket],
        fun k hk0 hk1 => by fin_cases k <;> simp_all [Stock.bucket]⟩
  case return_to_available =>
    simp only [StockOp.apply]
    unfold Stock.return_to_available
    by_cases h : s.quantity_repossessed < (amount : ℤ)
    · rw [if_pos h]; exact Or.inl ⟨_, rfl⟩
    · rw [if_neg h]
      refine Or.inr ⟨_, rfl, ⟨by dsimp; omega, by dsimp; omega, by dsimp; omega,
        by dsimp; omega⟩, by unfold Stock.total_quantity; dsimp; ring,
        3, 0, by decide, by simp [Stock.bucket], by simp [Stock.bucket],
        fun k hk0 hk1 => by fin_cases k <;> simp_all [Stock.bucket]⟩
  case cancel_reservation =>
    simp only [StockOp.apply]
    unfold Stock.cancel_reservation
    by_cases h : s.quantity_reserved < (amount : ℤ)
    · rw [if_pos h]; exact Or.inl ⟨_, rfl⟩
    · rw [if_neg h]
      refine Or.inr ⟨_, rfl, ⟨by dsimp; omega, by dsimp; omega, by dsimp; omega,
        by dsimp; omega⟩, by unfold Stock.total_quantity; dsimp; ring,
        1, 0, by decide, by simp [Stock.bucket], by simp [Stock.bucket],
        fun k hk0 hk1 => by fin_cases k <;> simp_all [Stock.bucket]⟩
  case decrease_available =>
    simp only [StockOp.apply]
    unfold Stock.decrease_available
    by_cases h : s.quantity_available < (amount : ℤ)
    · rw [if_pos h]; exact Or.inl ⟨_, rfl⟩
    · rw [if_neg h]
      refine Or.inr ⟨_, rfl, ⟨by dsimp; omega, by dsimp; omega, by dsimp; omega,
        by dsimp; omega⟩, by unfold Stock.total_quantity; dsimp; ring,
        0, 2, by decide, by simp [Stock.bucket], by simp [Stock.bucket],
        fun k hk0 hk1 => by fin_cases k <;> simp_all [Stock.bucket]⟩
  case increase_available =>
    simp only [StockOp.apply]
    unfold Stock.increase_available
    by_cases h : s.quantity_sold < (amount : ℤ)
    · rw [if_pos h]; exact Or.inl ⟨_, rfl⟩
    · rw [if_neg h]
      refine Or.inr ⟨_, rfl, ⟨by dsimp; omega, by dsimp; omega, by dsimp; omega,
        by dsimp; omega⟩, by unfold Stock.total_quantity; dsimp; ring,
        2, 0, by decide, by simp [Stock.bucket], by simp [Stock.bucket],
        fun k hk0 hk1 => by fin_cases k <;> simp_all [Stock.bucket]⟩

/-- Witness for `stock_transfer_invariants`: reserving 2 of 5 available
units. -/
theorem stock_transfer_invariants_witness :
    (∃ e, StockOp.apply StockOp.mark_as_reserved ⟨5, 0, 0, 0⟩ 2 = Except.error e)
    ∨ ∃ t, StockOp.apply StockOp.mark_as_reserved ⟨5, 0, 0, 0⟩ 2 = Except.ok t ∧ t.nonneg
        ∧ t.total_quantity = Stock.total_quantity ⟨5, 0, 0, 0⟩
        ∧ movesExactly ⟨5, 0, 0, 0⟩ t ((2 : ℕ) : ℤ) :=
  stock_transfer_invariants StockOp.mark_as_reserved ⟨5, 0, 0, 0⟩ 2 (by decide)

/-! ## Loan and schedule runtime state -/

inductive LoanStatus
  | pending
  | approved
  | active
  | completed
deriving DecidableEq

inductive ScheduleStatus
  | due
  | overdue
  | paid
deriving DecidableEq

/-- A persisted `PaymentSchedule` row as the payment / risk / repossession
logic sees it. -/
structure ScheduleRow where
  loan_application_id : ℕ
  sequence : ℕ
  due_date : ℤ
  principal_amount : ℤ
  interest_amount : ℤ
  total_amount : ℤ
  status : ScheduleStatus
  paid_at : Option ℤ
deriving DecidableEq

/-- The `LoanApplication` fields the embedded operations read or write.
`employment_status` keeps the stored string choice value, as the risk lookup
works on strings with a default. -/
structure Loan where
  id : ℕ
  status : LoanStatus
  employment_status : String
  monthly_income : ℤ
  principal_amount : ℤ
  interest_rate : ℤ
  term_years : ℕ
  monthly_payment : ℤ
  approved_at : Option ℤ
  activated_at : Option ℤ
  completed_at : Option ℤ
deriving DecidableEq

/-! ## Risk scoring: `motofinai/apps/risk/models.py`

Scores and factors are in the same cent encoding (`30.00` points is `3000`).
The source computes `min(expr, cap).quantize(0.01, HALF_UP)`; since half-up
rounding is monotone and fixes the exact 2-dp caps, this equals the min of the
rounded quotient and the cap, which is the integer form used here. -/

/-- `RiskAssessment.EMPLOYMENT_PENALTIES.get(status, 0)` (penalties in whole
points). -/
def employment_penalty_of (status : String) : ℤ :=
  if status = "employed" then 0
  else if status = "self_employed" then 8
  else if status = "unemployed" then 25
  else if status = "student" then 10
  else if status = "retired" then 6
  else 0

/-- `RiskAssessment.level_for_score` with `LOW_THRESHOLD = 40` and
`HIGH_THRESHOLD = 70`. -/
def level_for_score (score : ℤ) : String :=
  if score < 40 then "low" else if score < 70 then "medium" else "high"

/-- `RiskComputation`: the snapshot returned by `RiskAssessment.compute`.
Factors are cents of points; `score` is whole points. -/
structure RiskComputation where
  base_score : ℤ
  credit_score : ℤ
  missed_payments : ℕ
  employment_penalty : ℤ
  income_factor : ℤ
  credit_factor : ℤ
  dti_percent : ℤ
  score : ℤ
  risk_level : String
deriving DecidableEq

/-- `RiskAssessment.compute(loan, base_score, credit_score)`.
`missed_payments` counts the loan's `overdue` schedules;
`income_factor = min(principal/monthly_income * 10, 30.00)` rounded (or `30.00`
for non-positive income), `credit_factor = min(credit_score/20, 25.00)`
rounded, the debt-to-income percentage is capped at `999.99`, and
`score = max(0, round_half_up(base + missed*15 + incomeFactor - creditFactor
+ employmentPenalty))`. -/
def riskCompute (loan : Loan) (schedules : List ScheduleRow)
    (base_score credit_score : ℤ) : RiskComputation :=
  let missed_payments :=
    (schedules.filter fun r => r.status = ScheduleStatus.overdue).length
  let income_factor :=
    if loan.monthly_income ≤ 0 then (3000 : ℤ)
    else min (divRoundHalfUp (loan.principal_amount * 1000) loan.monthly_income) 3000
  let dti_percent :=
    if loan.monthly_income ≤ 0 then (10000 : ℤ)
    else min (divRoundHalfUp (loan.monthly_payment * 10000) loan.monthly_income) 99999
  let credit_factor := min (divRoundHalfUp (credit_score * 100) 20) 2500
  let employment_penalty := employment_penalty_of loan.employment_status
  let raw_score := base_score * 100 + (missed_payments : ℤ) * 15 * 100
    + income_factor - credit_factor + employment_penalty * 100
  let rounded := max 0 (divRoundHalfUp raw_score 100)
  { base_score := base_score, credit_score := credit_score,
    missed_payments := missed_payments, employment_penalty := employment_penalty,
    income_factor := income_factor, credit_factor := credit_factor,
    dti_percent := dti_percent, score := rounded,
    risk_level := level_for_score rounded }

/-- A stored `RiskAssessment` row (the result of `update_or_create`). -/
structure RiskAssessmentRow where
  score : ℤ
  risk_level : String
  base_score : ℤ
  credit_score : ℤ
  missed_payments : ℕ
  employment_penalty : ℤ
  income_factor : ℤ
  credit_factor : ℤ
  dti_percent : ℤ
  notes : String
deriving DecidableEq

def DEFAULT_BASE_SCORE : ℤ := 30

def DEFAULT_CREDIT_SCORE : ℤ := 650

/-- `RiskAssessmentManager.evaluate_for_loan`: caller-supplied overrides win;
otherwise the prior assessment's stored `base_score` / `credit_score` / `notes`
are reused; with no prior assessment the manager defaults (30 / 650 / empty
notes) apply.  The computation snapshot is stored on the (created or
overwritten) unique assessment row of the loan. -/
def evaluate_for_loan (loan : Loan) (schedules : List ScheduleRow)
    (existing : Option RiskAssessmentRow)
    (base_score credit_score : Option ℤ) (notes : Option String) :
    RiskAssessmentRow :=
  let base := match base_score, existing with
    | some b, _ => b
    | none, some e => e.base_score
    | none, none => DEFAULT_BASE_SCORE
  let credit := match credit_score, existing with
    | some c, _ => c
    | none, some e => e.credit_score
    | none, none => DEFAULT_CREDIT_SCORE
  let notes_value := match notes, existing with
    | some n, _ => n
    | none, some e => e.notes
    | none, none => ""
  let c := riskCompute loan schedules base credit
  { score := c.score, risk_level := c.risk_level, base_score := c.base_score,
    credit_score := c.credit_score, missed_payments := c.missed_payments,
    employment_penalty := c.employment_penalty, income_factor := c.income_factor,
    credit_factor := c.credit_factor, dti_percent := c.dti_percent,
    notes := notes_value }

/-- Characterization of the three risk bands of `level_for_score`. -/
theorem level_for_score_iff (s : ℤ) :
    (level_for_score s = "low" ↔ s < 40)
    ∧ (level_for_score s = "medium" ↔ 40 ≤ s ∧ s < 70)
    ∧ (level_for_score s = "high" ↔ 70 ≤ s) := by
  unfold level_for_score
  split_ifs with h1 h2
  · exact ⟨⟨fun _ => h1, fun _ => rfl⟩,
      ⟨fun h => absurd h (by decide), fun h => absurd h1 (by omega)⟩,
      ⟨fun h => absurd h (by decide), fun h => absurd h (by omega)⟩⟩
  · exact ⟨⟨fun h => absurd h (by decide), fun h => absurd h h1⟩,
      ⟨fun _ => ⟨by omega, h2⟩, fun _ => rfl⟩,
      ⟨fun h => absurd h (by decide), fun h => absurd h (by omega)⟩⟩
  · exact ⟨⟨fun h => absurd h (by decide), fun h => absurd h h1⟩,
      ⟨fun h => absurd h (by decide), fun h => absurd h.2 h2⟩,
      ⟨fun _ => by omega, fun _ => rfl⟩⟩

/-- C6.  The computed risk score is
`max(0, round_half_up(base + missed*15 + incomeFactor - creditFactor
+ employmentPenalty))`, with the factors as specified (all in cents of points),
`missedPayments` the count of overdue schedules, and the risk level determined
by the 40 / 70 thresholds (low iff score < 40, medium iff 40 ≤ score < 70,
high iff score ≥ 70). -/
theorem risk_score_formula (loan : Loan) (schedules : List ScheduleRow)
    (base_score credit_score : ℤ) :
    (riskCompute loan schedules base_score credit_score).missed_payments
        = (schedules.filter fun r => r.status = ScheduleStatus.overdue).length
    ∧ (riskCompute loan schedules base_score credit_score).income_factor
        = (if loan.monthly_income ≤ 0 then (3000 : ℤ)
           else min (divRoundHalfUp (loan.principal_amount * 1000) loan.monthly_income) 3000)
    ∧ (riskCompute loan schedules base_score credit_score).credit_factor
        = min (divRoundHalfUp (credit_score * 100) 20) 2500
    ∧ (riskCompute loan schedules base_score credit_score).employment_penalty
        = employment_penalty_of loan.employment_status
    ∧ (riskCompute loan schedules base_score credit_score).score
        = max 0 (divRoundHalfUp
            (base_score * 100
              + ((riskCompute loan schedules base_score credit_score).missed_payments : ℤ)
                  * 15 * 100
              + (riskCompute loan schedules base_score credit_score).income_factor
              - (riskCompute loan schedules base_score credit_score).credit_factor
              + (riskCompute loan schedules base_score credit_score).employment_penalty * 100)
            100)
    ∧ ((riskCompute loan schedules base_score credit_score).risk_level = "low"
        ↔ (riskCompute loan schedules base_score credit_score).score < 40)
    ∧ ((riskCompute loan schedules base_score credit_score).risk_level = "medium"
        ↔ 40 ≤ (riskCompute loan schedules base_score credit_score).score
          ∧ (riskCompute loan schedules base_score credit_score).score < 70)
    ∧ ((riskCompute loan schedules base_score credit_score).risk_level = "high"
        ↔ 70 ≤ (riskCompute loan schedules base_score credit_score).score) := by
  have h := level_for_score_iff ((riskCompute loan schedules base_score credit_score).score)
  exact ⟨rfl, rfl, rfl, rfl, rfl, h.1, h.2.1, h.2.2⟩

/-- C10.  With no prior assessment and no overrides, evaluation uses and stores
`base_score = 30` and `credit_score = 650`; with a prior assessment and no
overrides, its stored `base_score`, `credit_score` and `notes` are reused. -/
theorem risk_evaluation_defaults (loan : Loan) (schedules : List ScheduleRow) :
    ((evaluate_for_loan loan schedules none none none none).base_score = 30
      ∧ (evaluate_for_loan loan schedules none none none none).credit_score = 650)
    ∧ ∀ e : RiskAssessmentRow,
        (evaluate_for_loan loan schedules (some e) none none none).base_score
            = e.base_score
        ∧ (evaluate_for_loan loan schedules (some e) none none none).credit_score
            = e.credit_score
        ∧ (evaluate_for_loan loan schedules (some e) none none none).notes
            = e.notes :=
  ⟨⟨rfl, rfl⟩, fun _ => ⟨rfl, rfl, rfl⟩⟩

/-! ## Repossession: `motofinai/apps/repossession/models.py`

The event timeline is embedded as the list of appended event types (the
formatted event descriptions, actor and timestamp are presentation data no
claim touches).  `total_overdue_amount` is cents; the source's
`quantize(Decimal("0.01"))` of a sum of 2-dp amounts is the identity and is
dropped per the encoding conventions. -/

inductive CaseStatus
  | warning
  | active
  | reminder
  | recovered
  | closed
deriving DecidableEq

inductive RepoEventType
  | system
  | reminder
  | status
  | note
deriving DecidableEq

structure RepossessionCase where
  status : CaseStatus
  overdue_installments : ℕ
  total_overdue_amount : ℤ
  last_reminder_sent_at : Option ℤ
  resolution_notes : String
  closed_at : Option ℤ
deriving DecidableEq

/-- `RepossessionCase.is_open`: not recovered and not closed. -/
def RepossessionCase.is_open (c : RepossessionCase) : Prop :=
  c.status ≠ CaseStatus.recovered ∧ c.status ≠ CaseStatus.closed

instance (c : RepossessionCase) : Decidable c.is_open := by
  unfold RepossessionCase.is_open
  infer_instance

/-- `RepossessionCase.update_from_metrics`: store the current overdue counters,
escalate `warning → active` once two or more installments are overdue, append a
`system` event on creation or on any field change, and a `status` event on a
status change. -/
def update_from_metrics (c : RepossessionCase) (events : List RepoEventType)
    (overdue_installments : ℕ) (total_overdue_amount : ℤ) (created : Bool) :
    RepossessionCase × List RepoEventType :=
  let previous_status := c.status
  let status1 :=
    if 2 ≤ overdue_installments ∧ c.status = CaseStatus.warning
    then CaseStatus.active else c.status
  let c1 := { c with overdue_installments := overdue_installments,
                     total_overdue_amount := total_overdue_amount,
                     status := status1 }
  let events1 :=
    if created then events ++ [RepoEventType.system]
    else if c.overdue_installments ≠ overdue_installments
        ∨ c.total_overdue_amount ≠ total_overdue_amount
        ∨ status1 ≠ previous_status then events ++ [RepoEventType.system]
    else events
  let events2 :=
    if c1.status ≠ previous_status then events1 ++ [RepoEventType.status]
    else events1
  (c1, events2)

/-- `RepossessionCase.mark_recovered`: no-op when already closed; otherwise set
status `recovered`, zero the counters, stamp `closed_at`, attempt to restore
one stock unit (a failed restoration only logs a `system` warning event), then
append the status-change event (when the status changed) and the final
`system` event. -/
def mark_recovered (c : RepossessionCase) (events : List RepoEventType)
    (stock : Option Stock) (now : ℤ) :
    RepossessionCase × List RepoEventType × Option Stock :=
  if c.status = CaseStatus.closed then (c, events, stock)
  else
    let previous_status := c.status
    let c1 := { c with status := CaseStatus.recovered, overdue_installments := 0,
                       total_overdue_amount := 0, closed_at := some now }
    let stock_result : Option Stock × List RepoEventType :=
      match stock with
      | some st =>
        match st.increase_available 1 with
        | Except.ok st2 => (some st2, events)
        | Except.error _ => (stock, events ++ [RepoEventType.system])
      | none => (stock, events)
    let events2 :=
      if previous_status ≠ CaseStatus.recovered
      then stock_result.2 ++ [RepoEventType.status] else stock_result.2
    (c1, events2 ++ [RepoEventType.system], stock_result.1)

/-- `RepossessionCase.record_reminder`: set status `reminder`, stamp
`last_reminder_sent_at`, append the status-change event when the status
changed, then append the `reminder` event.  (The method itself performs no
`is_open` check.) -/
def record_reminder (c : RepossessionCase) (events : List RepoEventType)
    (now : ℤ) : RepossessionCase × List RepoEventType :=
  let previous_status := c.status
  let c1 := { c with status := CaseStatus.reminder,
                     last_reminder_sent_at := some now }
  let events1 :=
    if previous_status ≠ CaseStatus.reminder
    then events ++ [RepoEventType.status] else events
  (c1, events1 ++ [RepoEventType.reminder])

/-- The reminder endpoint (`RepossessionReminderView.dispatch` +
`form_valid` in `motofinai/apps/repossession/views.py`): a case that is not
open is rejected with `Http404` before `record_reminder` runs. -/
def reminder_view (c : RepossessionCase) (events : List RepoEventType)
    (now : ℤ) : Except String (RepossessionCase × List RepoEventType) :=
  if c.is_open then Except.ok (record_reminder c events now)
  else Except.error "This repossession case is already closed."

/-- `RepossessionCaseManager.sync_for_loan`: with no overdue schedules, an
existing case that is not recovered/closed is marked recovered and a missing
case stays missing; with overdue schedules, the case is fetched or created
(new cases start at `warning`) and updated from the current overdue count and
total. -/
def sync_for_loan (schedules : List ScheduleRow)
    (case? : Option RepossessionCase) (events : List RepoEventType)
    (stock : Option Stock) (now : ℤ) :
    Option RepossessionCase × List RepoEventType × Option Stock :=
  let overdue := schedules.filter fun r => r.status = ScheduleStatus.overdue
  let overdue_count := overdue.length
  let total_overdue_amount := (overdue.map ScheduleRow.total_amount).sum
  if overdue_count = 0 then
    match case? with
    | none => (none, events, stock)
    | some c =>
      if c.status ≠ CaseStatus.recovered ∧ c.status ≠ CaseStatus.closed then
        let r := mark_recovered c events stock now
        (some r.1, r.2.1, r.2.2)
      else (some c, events, stock)
  else
    let c0 := match case? with
      | some c => c
      | none =>
        { status := CaseStatus.warning, overdue_installments := 0,
          total_overdue_amount := 0, last_reminder_sent_at := none,
          resolution_notes := "", closed_at := none }
    let r := update_from_metrics c0 events overdue_count total_overdue_amount
      case?.isNone
    (some r.1, r.2, stock)

/-- C7.  After `sync_for_loan`: with zero overdue schedules no case is created
and an existing open case is recovered with zeroed counters; with at least one
overdue schedule the resulting case carries the current overdue count and
total, a fresh case starts at `warning` and is immediately `active` when two
or more installments are overdue, an existing `warning` case escalates the
same way, and a case in any other status keeps its status (no regression). -/
theorem repossession_sync (schedules : List ScheduleRow)
    (case? : Option RepossessionCase) (events : List RepoEventType)
    (stock : Option Stock) (now : ℤ) :
    ((schedules.filter fun r => r.status = ScheduleStatus.overdue).length = 0 →
      case? = none →
      (sync_for_loan schedules case? events stock now).1 = none)
    ∧ (∀ c : RepossessionCase,
        (schedules.filter fun r => r.status = ScheduleStatus.overdue).length = 0 →
        case? = some c → c.status ≠ CaseStatus.recovered →
        c.status ≠ CaseStatus.closed →
        ∃ c2, (sync_for_loan schedules case? events stock now).1 = some c2
          ∧ c2.status = CaseStatus.recovered
          ∧ c2.overdue_installments = 0
          ∧ c2.total_overdue_amount = 0)
    ∧ (1 ≤ (schedules.filter fun r => r.status = ScheduleStatus.overdue).length →
        ∃ c2, (sync_for_loan schedules case? events stock now).1 = some c2
          ∧ c2.overdue_installments
              = (schedules.filter fun r => r.status = ScheduleStatus.overdue).length
          ∧ c2.total_overdue_amount
              = ((schedules.filter fun r => r.status = ScheduleStatus.overdue).map
                  ScheduleRow.total_amount).sum
          ∧ (case? = none →
              c2.status = if 2 ≤ (schedules.filter fun r =>
                  r.status = ScheduleStatus.overdue).length
                then CaseStatus.active else CaseStatus.warning)
          ∧ (∀ c : RepossessionCase, case? = some c →
              c.status = CaseStatus.warning →
              c2.status = if 2 ≤ (schedules.filter fun r =>
                  r.status = ScheduleStatus.overdue).length
                then CaseStatus.active else CaseStatus.warning)
          ∧ (∀ c : RepossessionCase, case? = some c →
              c.status ≠ CaseStatus.warning → c2.status = c.status)) := by
  refine ⟨?_, ?_, ?_⟩
  · intro h0 hnone
    subst hnone
    unfold sync_for_loan
    rw [if_pos h0]
  · intro c h0 hsome hrec hclosed
    subst hsome
    unfold sync_for_loan
    rw [if_pos h0]
    dsimp only
    rw [if_pos ⟨hrec, hclosed⟩]
    unfold mark_recovered
    rw [if_neg hclosed]
    exact ⟨_, rfl, rfl, rfl, rfl⟩
  · intro h1
    unfold sync_for_loan
    rw [if_neg (by omega)]
    cases case? with
    | none =>
      dsimp only
      unfold update_from_metrics
      dsimp only
      refine ⟨_, rfl, rfl, rfl, ?_, ?_, ?_⟩
      · intro _
        by_cases h2 : 2 ≤ (schedules.filter fun r =>
            r.status = ScheduleStatus.overdue).length
        · rw [if_pos ⟨h2, rfl⟩, if_pos h2]
        · rw [if_neg (fun hc => h2 hc.1), if_neg h2]
      · intro c hc
        exact absurd hc (by simp)
      · intro c hc
        exact absurd hc (by simp)
    | some c =>
      dsimp only
      unfold update_from_metrics
      dsimp only
      refine ⟨_, rfl, rfl, rfl, ?_, ?_, ?_⟩
      · intro hc
        exact absurd hc (by simp)
      · intro c2 hc2 hwarn
        have hcc : c2 = c := by injection hc2.symm
        subst hcc
        by_cases h2 : 2 ≤ (schedules.filter fun r =>
            r.status = ScheduleStatus.overdue).length
        · rw [if_pos ⟨h2, hwarn⟩, if_pos h2]
        · rw [if_neg (fun hc => h2 hc.1), if_neg h2]
          exact hwarn
      · intro c2 hc2 hnw
        have hcc : c2 = c := by injection hc2.symm
        subst hcc
        rw [if_neg (fun hc => hnw hc.2)]

/-- A loan schedule row that is overdue (used by the witnesses below). -/
def demoOverdueRow1 : ScheduleRow :=
  ⟨7, 1, 10, 10000, 2000, 12000, ScheduleStatus.overdue, none⟩

def demoOverdueRow2 : ScheduleRow :=
  ⟨7, 2, 40, 10000, 2000, 12000, ScheduleStatus.overdue, none⟩

def demoWarningCase : RepossessionCase := ⟨CaseStatus.warning, 1, 12000, none, "", none⟩

/-- Witness for `repossession_sync`: a warning case of a loan with two overdue
installments of 120.00 each is escalated to `active` with counters 2 and
240.00. -/
theorem repossession_sync_witness :
    ∃ c2, (sync_for_loan [demoOverdueRow1, demoOverdueRow2] (some demoWarningCase)
        [] none 0).1 = some c2
      ∧ c2.overdue_installments = 2
      ∧ c2.total_overdue_amount = 24000
      ∧ c2.status = CaseStatus.active := by
  obtain ⟨c2, hc2, hcount, htotal, _, hwarn, _⟩ :=
    (repossession_sync [demoOverdueRow1, demoOverdueRow2] (some demoWarningCase)
      [] none 0).2.2 (by decide)
  exact ⟨c2, hc2, hcount.trans (by decide), htotal.trans (by decide),
    (hwarn demoWarningCase rfl (by decide)).trans (by decide)⟩

def demoClosedCase : RepossessionCase := ⟨CaseStatus.closed, 0, 0, none, "done", some 5⟩

/-- C8 fails as stated: `record_reminder` performs no `is_open` check, so
calling it on a closed case does change the case (its status becomes
`reminder`). -/
theorem record_reminder_counterexample :
    (record_reminder demoClosedCase [] 0).1 ≠ demoClosedCase := by decide

/-- C8, amended.  `record_reminder` itself unconditionally sets the status to
`reminder`, stamps `last_reminder_sent_at` and appends a `reminder` event, for
every case regardless of status; the `is_open` guard lives in the reminder
view, which rejects a recovered or closed case before `record_reminder` runs
(leaving it unchanged) and otherwise invokes `record_reminder`. -/
theorem record_reminder_behaviour (c : RepossessionCase)
    (events : List RepoEventType) (now : ℤ) :
    ((record_reminder c events now).1.status = CaseStatus.reminder
      ∧ (record_reminder c events now).1.last_reminder_sent_at = some now
      ∧ ∃ extra, (record_reminder c events now).2
          = events ++ extra ++ [RepoEventType.reminder])
    ∧ (¬ c.is_open →
        reminder_view c events now
          = Except.error "This repossession case is already closed.")
    ∧ (c.is_open →
        reminder_view c events now = Except.ok (record_reminder c events now)) := by
  refine ⟨⟨rfl, rfl, ?_⟩, ?_, ?_⟩
  · unfold record_reminder
    dsimp only
    by_cases h : c.status ≠ CaseStatus.reminder
    · exact ⟨[RepoEventType.status], by rw [if_pos h]⟩
    · exact ⟨[], by rw [if_neg h]; simp⟩
  · intro h
    unfold reminder_view
    rw [if_neg h]
  · intro h
    unfold reminder_view
    rw [if_pos h]

def demoActiveCase : RepossessionCase := ⟨CaseStatus.active, 2, 24000, none, "", none⟩

/-- Witness for `record_reminder_behaviour`: an open (`active`) case is moved
to `reminder` by the guarded endpoint. -/
theorem record_reminder_behaviour_witness :
    (record_reminder demoActiveCase [] 0).1.status = CaseStatus.reminder
    ∧ reminder_view demoActiveCase [] 0
        = Except.ok (record_reminder demoActiveCase [] 0) :=
  ⟨(record_reminder_behaviour demoActiveCase [] 0).1.1,
   (record_reminder_behaviour demoActiveCase [] 0).2.2 (by decide)⟩

/-! ## System state and the loan lifecycle -/

structure PaymentRow where
  loan_application_id : ℕ
  schedule_sequence : ℕ
  amount : ℤ
  payment_date : ℤ
deriving DecidableEq

/-- The persisted state one loan's operations read and write: the loan row,
its schedule rows, its payments, its unique risk assessment, its unique
repossession case with the event timeline, and the motor's stock batch (absent
when the motor has no stock). -/
structure SystemState where
  loan : Loan
  schedules : List ScheduleRow
  payments : List PaymentRow
  assessment : Option RiskAssessmentRow
  repossession_case : Option RepossessionCase
  repossession_events : List RepoEventType
  stock : Option Stock
deriving DecidableEq

/-- `LoanApplication.update_monthly_payment`. -/
def update_monthly_payment (loan : Loan) : Loan :=
  { loan with
      monthly_payment :=
        calculate_monthly_payment loan.principal_amount loan.interest_rate
          loan.term_years }

/-- A generated installment persisted as a schedule row (status `due`, no
payment timestamp).  `add_months(start_date, sequence)` is abstracted to
`start_date + sequence`, which preserves the ordering of due dates — the only
aspect the embedded logic consumes. -/
def installment_to_row (loan_id : ℕ) (start_date : ℤ) (inst : Installment) :
    ScheduleRow :=
  { loan_application_id := loan_id, sequence := inst.sequence,
    due_date := start_date + inst.sequence,
    principal_amount := inst.principal_amount,
    interest_amount := inst.interest_amount,
    total_amount := inst.total_amount,
    status := ScheduleStatus.due, paid_at := none }

/-- `LoanApplication.approve`: guard `status == pending` (raising before any
mutation), recompute the monthly payment, stamp `approved_at`, regenerate the
payment schedule and evaluate risk. -/
def approve (s : SystemState) (now : ℤ) : Except String SystemState :=
  if s.loan.status ≠ LoanStatus.pending then
    Except.error "Only pending applications can be approved."
  else
    let loan1 := update_monthly_payment s.loan
    let loan2 := { loan1 with status := LoanStatus.approved, approved_at := some now }
    let schedules := (generate_payment_schedule loan2.principal_amount
        loan2.interest_rate loan2.term_years loan2.monthly_payment).map
      (installment_to_row loan2.id now)
    let assessment := some (evaluate_for_loan loan2 schedules s.assessment
      none none none)
    Except.ok { s with loan := loan2, schedules := schedules,
                       assessment := assessment }

/-- `LoanApplication.activate`: guard `status == approved`, decrease the
motor's available stock by one (an insufficient-stock failure aborts the whole
operation), stamp `activated_at`. -/
def activate (s : SystemState) (now : ℤ) : Except String SystemState :=
  if s.loan.status ≠ LoanStatus.approved then
    Except.error "Only approved applications can be activated."
  else
    match s.stock with
    | some st =>
      match st.decrease_available 1 with
      | Except.error e => Except.error ("Stock management error: " ++ e)
      | Except.ok st2 =>
        Except.ok { s with
          loan := { s.loan with status := LoanStatus.active,
                                activated_at := some now },
          stock := some st2 }
    | none =>
      Except.ok { s with
        loan := { s.loan with status := LoanStatus.active,
                              activated_at := some now } }

/-- `LoanApplication.complete`: guard `status == active`, stamp
`completed_at`. -/
def complete (s : SystemState) (now : ℤ) : Except String SystemState :=
  if s.loan.status ≠ LoanStatus.active then
    Except.error "Only active applications can be completed."
  else
    Except.ok { s with
      loan := { s.loan with status := LoanStatus.completed,
                            completed_at := some now } }

/-- C5.  The three loan transitions are guarded: a call from any other source
status returns the rejection error (and, the operations being functions of the
state, no field changes); a successful `approve` leaves the loan `approved`,
so a second `approve` fails; `activate` on a `pending` loan fails. -/
theorem loan_transitions_guarded (s : SystemState) (now : ℤ) :
    (s.loan.status ≠ LoanStatus.pending →
      approve s now = Except.error "Only pending applications can be approved.")
    ∧ (s.loan.status ≠ LoanStatus.approved →
      activate s now = Except.error "Only approved applications can be activated.")
    ∧ (s.loan.status ≠ LoanStatus.active →
      complete s now = Except.error "Only active applications can be completed.")
    ∧ (∀ s2, approve s now = Except.ok s2 →
        s2.loan.status = LoanStatus.approved
        ∧ ∀ later, approve s2 later
            = Except.error "Only pending applications can be approved.")
    ∧ (s.loan.status = LoanStatus.pending →
      activate s now = Except.error "Only approved applications can be activated.") := by
  refine ⟨?_, ?_, ?_, ?_, ?_⟩
  · intro h
    unfold approve
    rw [if_pos h]
  · intro h
    unfold activate
    rw [if_pos h]
  · intro h
    unfold complete
    rw [if_pos h]
  · intro s2 h
    unfold approve at h
    by_cases hp : s.loan.status ≠ LoanStatus.pending
    · rw [if_pos hp] at h
      exact absurd h (by simp)
    · rw [if_neg hp] at h
      have hs2 : s2.loan.status = LoanStatus.approved := by
        have := Except.ok.inj h
        rw [← this]
      refine ⟨hs2, fun later => ?_⟩
      unfold approve
      rw [if_pos (by rw [hs2]; exact fun hc => LoanStatus.noConfusion hc)]
  · intro h
    unfold activate
    rw [if_pos (by rw [h]; exact fun hc => LoanStatus.noConfusion hc)]

def demoPendingLoan : Loan :=
  { id := 7, status := LoanStatus.pending, employment_status := "employed",
    monthly_income := 5000000, principal_amount := 8000000,
    interest_rate := 1200, term_years := 2, monthly_payment := 0,
    approved_at := none, activated_at := none, completed_at := none }

def demoPendingState : SystemState :=
  { loan := demoPendingLoan, schedules := [], payments := [],
    assessment := none, repossession_case := none, repossession_events := [],
    stock := some ⟨5, 0, 0, 0⟩ }

/-- Witness for `loan_transitions_guarded`: activating a pending loan is
rejected. -/
theorem loan_transitions_guarded_witness :
    activate demoPendingState 0
      = Except.error "Only approved applications can be activated." :=
  (loan_transitions_guarded demoPendingState 0).2.2.2.2 (by decide)

/-! ## Payments: `motofinai/apps/payments/models.py` -/

/-- `PaymentScheduleQuerySet.mark_overdue`: every `due` schedule whose due date
has passed the reference date becomes `overdue`. -/
def mark_overdue_rows (schedules : List ScheduleRow) (reference : ℤ) :
    List ScheduleRow :=
  schedules.map fun r =>
    if r.status = ScheduleStatus.due ∧ r.due_date < reference
    then { r with status := ScheduleStatus.overdue } else r

/-- `LoanApplication.update_completion_from_payments`: an `active` loan all of
whose schedules are `paid` is completed (via `complete()`, whose guard the
`active` check satisfies). -/
def update_completion_from_payments (loan : Loan) (schedules : List ScheduleRow)
    (now : ℤ) : Loan :=
  if loan.status = LoanStatus.active ∧ ∀ r ∈ schedules, r.status = ScheduleStatus.paid
  then { loan with status := LoanStatus.completed, completed_at := some now }
  else loan

/-- `LoanApplication.refresh_payment_progress`: overdue re-scan, completion
check, risk re-evaluation, repossession sync. -/
def refresh_payment_progress (s : SystemState) (reference now : ℤ) : SystemState :=
  let schedules := mark_overdue_rows s.schedules reference
  let loan := update_completion_from_payments s.loan schedules now
  let assessment := some (evaluate_for_loan loan schedules s.assessment none none none)
  let r := sync_for_loan schedules s.repossession_case s.repossession_events
    s.stock now
  { s with loan := loan, schedules := schedules, assessment := assessment,
           repossession_case := r.1, repossession_events := r.2.1,
           stock := r.2.2 }

/-- `Payment.clean` for a new payment (`self.pk` unset): the schedule must
belong to the declared loan, must not be settled already, and the amount must
be positive and equal the scheduled installment. -/
def payment_clean (schedule : ScheduleRow) (declared_loan_id : ℕ) (amount : ℤ) :
    Except String Unit :=
  if schedule.loan_application_id ≠ declared_loan_id then
    Except.error "Selected schedule is not part of the provided loan application."
  else if schedule.status = ScheduleStatus.paid then
    Except.error "This installment has already been settled."
  else if amount ≤ 0 then
    Except.error "Payment amount must be greater than zero."
  else if amount ≠ schedule.total_amount then
    Except.error "Payment amount must match the scheduled installment."
  else Except.ok ()

/-- `Payment.save`: `full_clean` first (any validation error aborts before any
write), then atomically persist the payment, mark the schedule paid with the
payment date (`PaymentSchedule.mark_paid`, which also runs the completion
check) and run `refresh_payment_progress` with the payment date as
reference. -/
def payment_save (s : SystemState) (seq declared_loan_id : ℕ)
    (amount payment_date now : ℤ) : Except String SystemState :=
  match s.schedules.find? fun r => r.sequence == seq with
  | none => Except.error "Payment schedule not found."
  | some schedule =>
    match payment_clean schedule declared_loan_id amount with
    | Except.error e => Except.error e
    | Except.ok _ =>
      let payments := s.payments
        ++ [⟨declared_loan_id, seq, amount, payment_date⟩]
      let schedules := s.schedules.map fun r =>
        if r.sequence = seq
        then { r with status := ScheduleStatus.paid, paid_at := some payment_date }
        else r
      let loan := update_completion_from_payments s.loan schedules now
      Except.ok (refresh_payment_progress
        { s with payments := payments, schedules := schedules, loan := loan }
        payment_date now)

/-- C4.  Saving a Payment is rejected (returning an error, hence no new state:
schedule, loan and existing payments stay as they were) whenever the schedule
does not belong to the declared loan, or is already paid, or the amount is
non-positive or differs from the scheduled total; when every check passes the
payment is persisted and the schedule ends up marked `paid`. -/
theorem payment_validation (s : SystemState) (seq declared : ℕ)
    (amount payment_date now : ℤ) (schedule : ScheduleRow)
    (hfind : s.schedules.find? (fun r => r.sequence == seq) = some schedule) :
    (schedule.loan_application_id ≠ declared ∨ schedule.status = ScheduleStatus.paid
      ∨ amount ≤ 0 ∨ amount ≠ schedule.total_amount →
      ∃ e, payment_save s seq declared amount payment_date now = Except.error e)
    ∧ (schedule.loan_application_id = declared →
      schedule.status ≠ ScheduleStatus.paid →
      0 < amount → amount = schedule.total_amount →
      ∃ s2, payment_save s seq declared amount payment_date now = Except.ok s2
        ∧ s2.payments = s.payments ++ [⟨declared, seq, amount, payment_date⟩]
        ∧ ∃ r ∈ s2.schedules, r.sequence = seq ∧ r.status = ScheduleStatus.paid) := by
  constructor
  · intro hbad
    have hclean : ∃ e, payment_clean schedule declared amount = Except.error e := by
      unfold payment_clean
      split_ifs with h1 h2 h3 h4
      · exact ⟨_, rfl⟩
      · exact ⟨_, rfl⟩
      · exact ⟨_, rfl⟩
      · exact ⟨_, rfl⟩
      · rcases hbad with hb | hb | hb | hb
        · exact absurd hb h1
        · exact absurd hb h2
        · exact absurd hb h3
        · exact absurd hb h4
    obtain ⟨e, he⟩ := hclean
    refine ⟨e, ?_⟩
    unfold payment_save
    rw [hfind]
    dsimp only
    rw [he]
  · intro hid hpaid hpos hamount
    have hclean : payment_clean schedule declared amount = Except.ok () := by
      unfold payment_clean
      rw [if_neg (fun hc => hc hid), if_neg hpaid, if_neg (by omega),
        if_neg (fun hc => hc hamount)]
    have hmem : schedule ∈ s.schedules := List.mem_of_find?_eq_some hfind
    have hseq : schedule.sequence = seq := by
      simpa using List.find?_some hfind
    have hsave : payment_save s seq declared amount payment_date now
        = Except.ok (refresh_payment_progress
            { s with
                payments := s.payments ++ [⟨declared, seq, amount, payment_date⟩],
                schedules := s.schedules.map fun r =>
                  if r.sequence = seq
                  then { r with status := ScheduleStatus.paid, paid_at := some payment_date }
                  else r,
                loan := update_completion_from_payments s.loan
                  (s.schedules.map fun r =>
                    if r.sequence = seq
                    then { r with status := ScheduleStatus.paid, paid_at := some payment_date }
                    else r) now }
            payment_date now) := by
      unfold payment_save
      rw [hfind]
      dsimp only
      rw [hclean]
    refine ⟨_, hsave, ?_, ?_⟩
    · unfold refresh_payment_progress
      rfl
    · have hstep1 :
          ({ schedule with status := ScheduleStatus.paid, paid_at := some payment_date } : ScheduleRow)
            ∈ s.schedules.map (fun r =>
              if r.sequence = seq
              then { r with status := ScheduleStatus.paid, paid_at := some payment_date }
              else r) := by
        have h := List.mem_map_of_mem (fun r =>
          if r.sequence = seq
          then { r with status := ScheduleStatus.paid, paid_at := some payment_date }
          else r) hmem
        dsimp only at h
        rw [if_pos hseq] at h
        exact h
      have hstep2 :
          ({ schedule with status := ScheduleStatus.paid, paid_at := some payment_date } : ScheduleRow)
            ∈ mark_overdue_rows (s.schedules.map (fun r =>
              if r.sequence = seq
              then { r with status := ScheduleStatus.paid, paid_at := some payment_date }
              else r)) payment_date := by
        have h := List.mem_map_of_mem (fun r =>
          if r.status = ScheduleStatus.due ∧ r.due_date < payment_date
          then { r with status := ScheduleStatus.overdue } else r) hstep1
        dsimp only at h
        rw [if_neg (fun hc => ScheduleStatus.noConfusion hc.1)] at h
        exact h
      refine ⟨{ schedule with status := ScheduleStatus.paid, paid_at := some payment_date },
        ?_, hseq, rfl⟩
      show _ ∈ (refresh_payment_progress _ _ _).schedules
      unfold refresh_payment_progress
      dsimp only
      exact hstep2

def demoDueRow : ScheduleRow := ⟨7, 1, 10, 333333, 80000, 413333, ScheduleStatus.due, none⟩

def demoPayState : SystemState :=
  { loan := { demoPendingLoan with status := LoanStatus.active, monthly_payment := 413333 },
    schedules := [demoDueRow], payments := [], assessment := none,
    repossession_case := none, repossession_events := [], stock := none }

/-- Witness for `payment_validation`: paying the exact 4133.33 installment of
a due schedule succeeds, persists the payment and marks the schedule paid. -/
theorem payment_validation_witness :
    ∃ s2, payment_save demoPayState 1 7 413333 5 5 = Except.ok s2
      ∧ s2.payments = demoPayState.payments ++ [⟨7, 1, 413333, 5⟩]
      ∧ ∃ r ∈ s2.schedules, r.sequence = 1 ∧ r.status = ScheduleStatus.paid :=
  (payment_validation demoPayState 1 7 413333 5 5 demoDueRow (by decide)).2
    (by decide) (by decide) (by decide) (by decide)
